import Mathlib

/-!
Shallow embedding of the `gun` workflow tool (src/index.ts).

The program is a single linear script: it loads a key=value config file,
inspects the repository state (current branch, porcelain status), and then
runs either the direct-commit path (non-default branch) or the
feature-branch path (default branch): create branch, commit, push,
optionally create a PR, optionally enable auto-merge, optionally check out
the base branch again and delete the local branch.

External effects are modelled explicitly: prompt answers and command
results (exit codes, captured stdout/stderr, the content of the
commit-message pool file, the random index drawn) are inputs, and the
sequence of mutating git/gh commands issued, the console log lines, and
the process exit code are the output (`RunResult`).
-/

namespace Gun

/-! ### JS string primitives

The script uses `trim`, single-character `split`, `startsWith('#')` and a
global-newline `replace`.  They are embedded as structural recursions over
the character list so that every definition evaluates. -/

/-- The whitespace class of JS `String.prototype.trim`, restricted to the
ASCII control/space characters that arise here (the rest of the Unicode
space class is elided). -/
def isJsWhitespace (c : Char) : Bool :=
  c == ' ' || c == '\t' || c == '\n' || c == '\r' || c == '\x0b' || c == '\x0c'

/-- JS `s.trim()`: drop whitespace from both ends. -/
def jsTrim (s : String) : String :=
  String.mk (((s.data.dropWhile isJsWhitespace).reverse.dropWhile isJsWhitespace).reverse)

/-- Worker for `jsSplit`: `acc` holds the current segment reversed. -/
def jsSplitAux (sep : Char) : List Char → List Char → List String
  | [], acc => [String.mk acc.reverse]
  | c :: cs, acc =>
    if c == sep then String.mk acc.reverse :: jsSplitAux sep cs []
    else jsSplitAux sep cs (c :: acc)

/-- JS `s.split(sep)` for a one-character separator (the script only splits
on `'\n'`, `'='` and `'/'`). -/
def jsSplit (sep : Char) (s : String) : List String := jsSplitAux sep s.data []

/-- JS `s.startsWith('#')`. -/
def startsWithHash (s : String) : Bool :=
  match s.data with
  | [] => false
  | c :: _ => c == '#'

/-- JS `s.replace(/\n/g, '')`. -/
def removeNewlines (s : String) : String :=
  String.mk (s.data.filter (fun c => !(c == '\n')))

/-- JS `arr.join('=')`, used only to state the spec's split-on-first-`=`
reading. -/
def joinEq : List String → String
  | [] => ""
  | [x] => x
  | x :: xs => x ++ "=" ++ joinEq xs

/-- `const defaultBranches = ['main', 'master', 'bullseye']` (src/index.ts:24). -/
def defaultBranches : List String := ["main", "master", "bullseye"]

/-- `const configKeys = [...]` (src/index.ts:25). -/
def configKeys : List String :=
  ["CREATE_PR", "FUNNY_COMMIT", "AUTO_MERGE", "BACK_TO_DEFAULT", "DELETE_BRANCH"]

/-- The five boolean workflow toggles (the `config` record of `loadConfig`). -/
structure Config where
  CREATE_PR : Bool
  FUNNY_COMMIT : Bool
  AUTO_MERGE : Bool
  BACK_TO_DEFAULT : Bool
  DELETE_BRANCH : Bool
  deriving Repr, DecidableEq

/-- The hard-coded defaults: every key starts out `true` (src/index.ts:98-104). -/
def defaultConfig : Config := ⟨true, true, true, true, true⟩

/-- `config[trimmedKey] = b` for a key known to be one of the five. -/
def setConfigKey (c : Config) (k : String) (b : Bool) : Config :=
  if k = "CREATE_PR" then { c with CREATE_PR := b }
  else if k = "FUNNY_COMMIT" then { c with FUNNY_COMMIT := b }
  else if k = "AUTO_MERGE" then { c with AUTO_MERGE := b }
  else if k = "BACK_TO_DEFAULT" then { c with BACK_TO_DEFAULT := b }
  else if k = "DELETE_BRANCH" then { c with DELETE_BRANCH := b }
  else c

/-- `const [key, value] = line.split('=')` followed by the JS truthiness test
`if (key && value)` (src/index.ts:109-110): the first two segments of the
split on every `=`; the line is skipped when either is absent or empty. -/
def lineKV (line : String) : Option (String × String) :=
  let parts := jsSplit '=' line
  match parts[0]?, parts[1]? with
  | some key, some value =>
    if key == "" || value == "" then none else some (key, value)
  | _, _ => none

/-- The body of the `for (const line of configLines)` loop of `loadConfig`
(src/index.ts:108-125): one line's effect on the in-memory config. -/
def processConfigLine (c : Config) (line : String) : Config :=
  match lineKV line with
  | none => c
  | some (key, value) =>
    let trimmedKey := jsTrim key
    let trimmedValue := jsTrim value
    if configKeys.contains trimmedKey then
      if trimmedValue = "true" then setConfigKey c trimmedKey true
      else if trimmedValue = "false" then setConfigKey c trimmedKey false
      else c
    else c

/-- `loadConfig` (src/index.ts:96-157) on a readable config file:
split the content on newlines and fold the per-line update over the
all-`true` defaults.  (The unreadable-file branch performs first-run setup
and exits; it is outside the claims about parsing.) -/
def loadConfig (content : String) : Config :=
  (jsSplit '\n' content).foldl processConfigLine defaultConfig

/-- Second reading for comparison, following the specification text only:
split the line on the FIRST `=`, the value being everything after it. -/
def specSplitFirstEq (line : String) : Option (String × String) :=
  match jsSplit '=' line with
  | [] => none
  | [_] => none
  | key :: rest => some (key, joinEq rest)

/-- The character class of the regex `[^a-zA-Z0-9]` (src/index.ts:252). -/
def isAsciiAlnum (c : Char) : Bool :=
  (65 ≤ c.toNat && c.toNat ≤ 90) || (97 ≤ c.toNat && c.toNat ≤ 122) ||
    (48 ≤ c.toNat && c.toNat ≤ 57)

/-- One character of `branchName.replace(/[^a-zA-Z0-9]/g, '-')`. -/
def replChar (c : Char) : Char := if isAsciiAlnum c then c else '-'

/-- One character of `.toLowerCase()`.  The source lowercases only after the
replacement, so every character reaching it is ASCII, where JS
`toLowerCase` is the ASCII shift by 32. -/
def lowerChar (c : Char) : Char :=
  if 65 ≤ c.toNat && c.toNat ≤ 90 then Char.ofNat (c.toNat + 32) else c

/-- `branchName.replace(/[^a-zA-Z0-9]/g, '-').toLowerCase()`
(src/index.ts:252), producing `fixedBranchName`. -/
def sanitize (s : String) : String :=
  String.mk ((s.data.map replChar).map lowerChar)

/-- The output class `^[a-z0-9-]*$`, one character at a time. -/
def isLowerAlnumDash (c : Char) : Bool :=
  (97 ≤ c.toNat && c.toNat ≤ 122) || (48 ≤ c.toNat && c.toNat ≤ 57) || c == '-'

/-- Outcome of `getCommitMessage` (src/index.ts:182-196): a message, the
fatal pool-load failure, or the uncaught indexing error on an `undefined`
element of the filtered line list. -/
inductive MsgResult where
  | ok (msg : String)
  | loadFailure
  | crash
  deriving Repr, DecidableEq

/-- `data.split('\n').filter((line) => !line.startsWith('#') && line.trim() !== '')`
(src/index.ts:190): the eligible lines of the commit-message pool. -/
def eligibleLines (data : String) : List String :=
  (jsSplit '\n' data).filter (fun line => !startsWithHash line && !(jsTrim line == ""))

/-- `getCommitMessage(funnyCommit)` (src/index.ts:182-196).  `pool` is the
content of `commit_messages.txt` (`none` when unreadable); `randIdx` is the
index drawn by `Math.floor(Math.random() * lines.length)`.  Indexing past
the end of the filtered list (the only reachable case being the empty
list, where the drawn index is 0) yields `undefined` and `.trim()` on it
throws: `crash`. -/
def getCommitMessage (funnyCommit : Bool) (pool : Option String) (randIdx : Nat) : MsgResult :=
  if !funnyCommit then .ok "wip"
  else
    match pool with
    | none => .loadFailure
    | some data =>
      match (eligibleLines data)[randIdx]? with
      | some line => .ok (jsTrim line)
      | none => .crash

/-- The mutating git/gh commands the script can issue. -/
inductive Cmd where
  | gitAdd
  | gitCommit (msg : String)
  | gitPush
  | gitCheckoutB (branch : String)
  | gitPushU (branch : String)
  | ghPrCreate (base : String)
  | ghPrMerge (num : String)
  | gitCheckout (branch : String)
  | gitBranchDelete (branch : String)
  deriving Repr, DecidableEq

/-- The environment of one run: outputs of the read-only queries and of the
checked external commands, the pool file, and the random draw. -/
structure Env where
  currentBranchOutput : String
  statusOutput : String
  pool : Option String
  randIdx : Nat
  prCreateExit : Nat
  prCreateStdout : String
  prCreateStderr : String
  autoMergeExit : Nat
  autoMergeStdout : String
  autoMergeStderr : String
  deriving Repr, DecidableEq

/-- The operator's answers to the interactive prompts. -/
structure Answers where
  wipIt : Bool
  createBranch : Bool
  branchNameInput : String
  commitMessageInput : String
  createPr : Bool
  enableAutoMerge : Bool
  backToDefault : Bool
  deleteBranch : Bool
  deriving Repr, DecidableEq

/-- Observable outcome of a run: the mutating commands issued in order, the
console log lines, and the process exit code. -/
structure RunResult where
  cmds : List Cmd
  logs : List String
  exitCode : Nat
  deriving Repr, DecidableEq

/-- The `if (!isDefaultBranch)` block (src/index.ts:227-240).  Note the
source resolves the commit message BEFORE testing the `wipIt` answer, so a
failing resolution is fatal even when the operator declined. -/
def directCommitPath (config : Config) (env : Env) (ans : Answers) : RunResult :=
  match getCommitMessage config.FUNNY_COMMIT env.pool env.randIdx with
  | .loadFailure => { cmds := [], logs := ["Error reading file"], exitCode := 1 }
  | .crash => { cmds := [], logs := [], exitCode := 1 }
  | .ok commitMessage =>
    if ans.wipIt then
      { cmds := [Cmd.gitAdd, Cmd.gitCommit commitMessage, Cmd.gitPush],
        logs := ["📂 Staged all changes",
                 "📝 Commit message: " ++ commitMessage,
                 "🚀 Pushed changes to remote"],
        exitCode := 0 }
    else { cmds := [], logs := [], exitCode := 0 }

/-- The tail of the feature-branch path (src/index.ts:314-325): checkout of
the base branch when requested, then the local branch deletion (whose
prompt is only offered after an affirmative back-to-default answer). -/
def finishRun (ans : Answers) (baseBranch fixedBranchName : String)
    (cmds : List Cmd) (logs : List String) : RunResult :=
  let deleteBranch := ans.backToDefault && ans.deleteBranch
  let c1 := if ans.backToDefault then cmds ++ [Cmd.gitCheckout baseBranch] else cmds
  let l1 := if ans.backToDefault then logs ++ ["🔙 Back to " ++ baseBranch ++ " "] else logs
  let c2 := if deleteBranch then c1 ++ [Cmd.gitBranchDelete fixedBranchName] else c1
  let l2 := if deleteBranch then l1 ++ ["🗑️  Deleted branch: " ++ fixedBranchName] else l1
  { cmds := c2, logs := l2, exitCode := 0 }

/-- The `if (isDefaultBranch)` block (src/index.ts:242-326): branch
creation, commit, push, optional PR creation (fatal on failure), optional
auto-merge (warning on failure), then `finishRun`. -/
def featureBranchPath (env : Env) (ans : Answers) (baseBranch : String) : RunResult :=
  if ans.createBranch then
    let fixedBranchName := sanitize ans.branchNameInput
    let commitMessage := ans.commitMessageInput
    let baseCmds := [Cmd.gitCheckoutB fixedBranchName, Cmd.gitAdd,
                     Cmd.gitCommit commitMessage, Cmd.gitPushU fixedBranchName]
    let baseLogs := ["🌿 Created and checked out to new branch: " ++ fixedBranchName,
                     "📂 Staged all changes",
                     "📝 Commit message: " ++ commitMessage,
                     "🚀 Pushed branch to remote: " ++ fixedBranchName]
    if ans.createPr then
      let prCmds := baseCmds ++ [Cmd.ghPrCreate baseBranch]
      if env.prCreateExit ≠ 0 then
        { cmds := prCmds,
          logs := baseLogs ++ ["🚨 Could not create PR",
                               "🚨 PR create stdout: " ++ env.prCreateStdout,
                               "🚨 PR create stderr: " ++ env.prCreateStderr],
          exitCode := 1 }
      else
        let trimmedOutput := jsTrim env.prCreateStdout
        let prNumber := (jsSplit '/' (jsTrim (removeNewlines env.prCreateStdout))).getLastD ""
        let prLogs := baseLogs ++ ["🔗 Created PR: " ++ trimmedOutput,
                                   "📋 Copied PR URL to clipboard"]
        let afterMerge : List Cmd × List String :=
          if ans.enableAutoMerge then
            if env.autoMergeExit = 0 then
              (prCmds ++ [Cmd.ghPrMerge prNumber], prLogs ++ ["👋 Enabled auto-merge"])
            else
              (prCmds ++ [Cmd.ghPrMerge prNumber],
               prLogs ++ ["👎 Could not enable auto-merge",
                          "👎 Auto-merge stdout: " ++ env.autoMergeStdout,
                          "👎 Auto-merge stderr: " ++ env.autoMergeStderr])
          else (prCmds, prLogs)
        finishRun ans baseBranch fixedBranchName afterMerge.1 afterMerge.2
    else
      finishRun ans baseBranch fixedBranchName baseCmds baseLogs
  else { cmds := [], logs := [], exitCode := 0 }

/-- The top-level run (src/index.ts:215-326): read the current branch and
the porcelain status, stop on a clean tree, otherwise dispatch on the
default-branch classification. -/
def run (config : Config) (env : Env) (ans : Answers) : RunResult :=
  let baseBranch := jsTrim env.currentBranchOutput
  if jsTrim env.statusOutput = "" then
    { cmds := [], logs := ["Nothing to commit"], exitCode := 0 }
  else if defaultBranches.contains baseBranch then
    featureBranchPath env ans baseBranch
  else
    directCommitPath config env ans

/-! ### Concrete sample inputs used by witnesses and counterexamples -/

/-- A run on a dirty feature branch with an unreadable message pool. -/
def cexEnvNoPool : Env :=
  { currentBranchOutput := "feature-x\n", statusOutput := " M a.txt\n", pool := none,
    randIdx := 0, prCreateExit := 0, prCreateStdout := "", prCreateStderr := "",
    autoMergeExit := 0, autoMergeStdout := "", autoMergeStderr := "" }

/-- The operator declines the wip prompt but accepts everything else. -/
def cexAnsDeclined : Answers :=
  { wipIt := false, createBranch := true, branchNameInput := "b", commitMessageInput := "m",
    createPr := true, enableAutoMerge := true, backToDefault := true, deleteBranch := true }

/-- A run on a dirty default branch where `gh pr create` fails. -/
def envPrFail : Env :=
  { currentBranchOutput := "main\n", statusOutput := " M a.txt\n", pool := some "x",
    randIdx := 0, prCreateExit := 1, prCreateStdout := "out", prCreateStderr := "err",
    autoMergeExit := 0, autoMergeStdout := "", autoMergeStderr := "" }

/-- The operator accepts every prompt. -/
def ansAllYes : Answers :=
  { wipIt := true, createBranch := true, branchNameInput := "My Branch",
    commitMessageInput := "msg", createPr := true, enableAutoMerge := true,
    backToDefault := true, deleteBranch := true }

/-- A run where the PR is created but `gh pr merge --auto` fails. -/
def envMergeFail : Env :=
  { currentBranchOutput := "main\n", statusOutput := " M a.txt\n", pool := some "x",
    randIdx := 0, prCreateExit := 0, prCreateStdout := "https://example.com/r/pull/7\n",
    prCreateStderr := "", autoMergeExit := 1, autoMergeStdout := "mo", autoMergeStderr := "me" }

/-- A run on a clean working tree. -/
def envClean : Env :=
  { currentBranchOutput := "main\n", statusOutput := "  \n", pool := none,
    randIdx := 0, prCreateExit := 0, prCreateStdout := "", prCreateStderr := "",
    autoMergeExit := 0, autoMergeStdout := "", autoMergeStderr := "" }

/-- A run on a dirty feature branch with a one-line message pool. -/
def envWipPool : Env :=
  { currentBranchOutput := "feature-x\n", statusOutput := " M a.txt\n",
    pool := some "fix stuff\n", randIdx := 0, prCreateExit := 0, prCreateStdout := "",
    prCreateStderr := "", autoMergeExit := 0, autoMergeStdout := "", autoMergeStderr := "" }

/-- A configuration with `FUNNY_COMMIT` turned off. -/
def cfgNoFunny : Config := ⟨true, false, true, true, true⟩

/-- The operator confirms the wip prompt (direct-commit path only). -/
def ansWipYes : Answers :=
  { wipIt := true, createBranch := false, branchNameInput := "",
    commitMessageInput := "", createPr := false, enableAutoMerge := false,
    backToDefault := false, deleteBranch := false }

/-! ### Helper lemmas for branch-name sanitization (C4) -/

/-- Every scalar value below 123 round-trips through `Char.ofNat`. -/
theorem charOfNat_toNat_lt : ∀ n, n < 123 → (Char.ofNat n).toNat = n := by decide

/-- Arithmetic reading of `isAsciiAlnum`. -/
theorem isAsciiAlnum_iff (c : Char) :
    isAsciiAlnum c = true ↔
      (65 ≤ c.toNat ∧ c.toNat ≤ 90) ∨ (97 ≤ c.toNat ∧ c.toNat ≤ 122) ∨
        (48 ≤ c.toNat ∧ c.toNat ≤ 57) := by
  simp only [isAsciiAlnum, Bool.or_eq_true, Bool.and_eq_true, decide_eq_true_eq, or_assoc]

/-- Arithmetic reading of `isLowerAlnumDash`. -/
theorem isLowerAlnumDash_iff (c : Char) :
    isLowerAlnumDash c = true ↔
      (97 ≤ c.toNat ∧ c.toNat ≤ 122) ∨ (48 ≤ c.toNat ∧ c.toNat ≤ 57) ∨ c = '-' := by
  simp only [isLowerAlnumDash, Bool.or_eq_true, Bool.and_eq_true, decide_eq_true_eq,
    beq_iff_eq, or_assoc]

/-- `lowerChar` fixes anything outside the uppercase range. -/
theorem lowerChar_eq_self (c : Char) (h : ¬(65 ≤ c.toNat ∧ c.toNat ≤ 90)) :
    lowerChar c = c := by
  have hc : ¬((65 ≤ c.toNat && c.toNat ≤ 90) = true) := by
    rw [Bool.and_eq_true, decide_eq_true_eq, decide_eq_true_eq]; exact h
  rw [lowerChar, if_neg hc]

/-- `lowerChar` shifts an uppercase letter down by 32. -/
theorem lowerChar_upper (c : Char) (h1 : 65 ≤ c.toNat) (h2 : c.toNat ≤ 90) :
    lowerChar c = Char.ofNat (c.toNat + 32) := by
  have hc : (65 ≤ c.toNat && c.toNat ≤ 90) = true := by
    rw [Bool.and_eq_true, decide_eq_true_eq, decide_eq_true_eq]; exact ⟨h1, h2⟩
  rw [lowerChar, if_pos hc]

/-- Each sanitized character lies in `[a-z0-9-]`. -/
theorem sanitizeChar_mem (c : Char) : isLowerAlnumDash (lowerChar (replChar c)) = true := by
  by_cases h : isAsciiAlnum c = true
  · rw [replChar, if_pos h]
    rcases (isAsciiAlnum_iff c).mp h with h | h | h
    · have hn : (Char.ofNat (c.toNat + 32)).toNat = c.toNat + 32 :=
        charOfNat_toNat_lt _ (by omega)
      rw [lowerChar_upper c h.1 h.2, isLowerAlnumDash_iff, hn]
      exact Or.inl ⟨by omega, by omega⟩
    · rw [lowerChar_eq_self c (by omega), isLowerAlnumDash_iff]
      exact Or.inl h
    · rw [lowerChar_eq_self c (by omega), isLowerAlnumDash_iff]
      exact Or.inr (Or.inl h)
  · rw [replChar, if_neg h]
    decide

/-- Characters already in `[a-z0-9-]` are fixed by one sanitization step. -/
theorem sanitizeChar_fixed (c : Char) (h : isLowerAlnumDash c = true) :
    lowerChar (replChar c) = c := by
  rcases (isLowerAlnumDash_iff c).mp h with h | h | h
  · have ha : isAsciiAlnum c = true := (isAsciiAlnum_iff c).mpr (Or.inr (Or.inl h))
    rw [replChar, if_pos ha]
    exact lowerChar_eq_self c (by omega)
  · have ha : isAsciiAlnum c = true := (isAsciiAlnum_iff c).mpr (Or.inr (Or.inr h))
    rw [replChar, if_pos ha]
    exact lowerChar_eq_self c (by omega)
  · rw [h]; decide

/-- The per-character sanitization step is idempotent. -/
theorem sanitizeChar_idem (c : Char) :
    lowerChar (replChar (lowerChar (replChar c))) = lowerChar (replChar c) :=
  sanitizeChar_fixed _ (sanitizeChar_mem c)

/-- List form of sanitize-idempotence. -/
theorem sanitizeList_idem (l : List Char) :
    ((((l.map replChar).map lowerChar).map replChar).map lowerChar) =
      (l.map replChar).map lowerChar := by
  induction l with
  | nil => rfl
  | cons c cs ih =>
    simp only [List.map_cons]
    rw [sanitizeChar_idem c, ih]

/-- List form of the sanitize output range. -/
theorem sanitizeList_all (l : List Char) :
    ((l.map replChar).map lowerChar).all isLowerAlnumDash = true := by
  induction l with
  | nil => rfl
  | cons c cs ih =>
    simp only [List.map_cons, List.all_cons, sanitizeChar_mem, ih, Bool.and_self]

/-- Claim C4: branch-name sanitization (replace every character outside
`[A-Za-z0-9]` with `-`, then lowercase) is idempotent, its output always
matches `^[a-z0-9-]*$`, and `sanitize "My Cool Branch!" = "my-cool-branch-"`. -/
theorem sanitize_idem_and_range :
    (∀ s, sanitize (sanitize s) = sanitize s) ∧
    (∀ s, (sanitize s).data.all isLowerAlnumDash = true) ∧
    sanitize "My Cool Branch!" = "my-cool-branch-" :=
  ⟨fun s => congrArg String.mk (sanitizeList_idem s.data),
   fun s => sanitizeList_all s.data,
   by decide⟩

/-! ### The workflow claims -/

/-- Claim C3: whenever the porcelain status trims to the empty string, the
run reports "Nothing to commit" and exits 0 immediately: no staging,
commit, push, checkout, branch-delete or PR command is ever issued,
regardless of the current branch, the configuration or the answers. -/
theorem cleanTree_noOp (config : Config) (env : Env) (ans : Answers)
    (h : jsTrim env.statusOutput = "") :
    run config env ans = { cmds := [], logs := ["Nothing to commit"], exitCode := 0 } := by
  simp [run, h]

/-- Witness for `cleanTree_noOp` at a concrete clean-tree run. -/
theorem cleanTree_noOp_witness :
    run defaultConfig envClean ansAllYes =
      { cmds := [], logs := ["Nothing to commit"], exitCode := 0 } :=
  cleanTree_noOp defaultConfig envClean ansAllYes (by decide)

/-- Claim C1: in the FeatureBranch path, when the PR-creation command exits
non-zero, the run surfaces the captured stdout and stderr, terminates with
exit code 1, and no auto-merge, no checkout of the base branch and no
local branch deletion is ever issued, whatever the operator confirmed
earlier (the answers are universally quantified). -/
theorem prCreateFailure_haltsPostActions (config : Config) (env : Env) (ans : Answers)
    (hdirty : jsTrim env.statusOutput ≠ "")
    (hdef : jsTrim env.currentBranchOutput ∈ defaultBranches)
    (hcb : ans.createBranch = true) (hpr : ans.createPr = true)
    (hexit : env.prCreateExit ≠ 0) :
    (run config env ans).exitCode = 1 ∧
    ("🚨 PR create stdout: " ++ env.prCreateStdout) ∈ (run config env ans).logs ∧
    ("🚨 PR create stderr: " ++ env.prCreateStderr) ∈ (run config env ans).logs ∧
    (∀ n, Cmd.ghPrMerge n ∉ (run config env ans).cmds) ∧
    (∀ b, Cmd.gitCheckout b ∉ (run config env ans).cmds) ∧
    (∀ b, Cmd.gitBranchDelete b ∉ (run config env ans).cmds) := by
  have hrun : run config env ans =
      { cmds := [Cmd.gitCheckoutB (sanitize ans.branchNameInput), Cmd.gitAdd,
                 Cmd.gitCommit ans.commitMessageInput,
                 Cmd.gitPushU (sanitize ans.branchNameInput),
                 Cmd.ghPrCreate (jsTrim env.currentBranchOutput)],
        logs := ["🌿 Created and checked out to new branch: " ++ sanitize ans.branchNameInput,
                 "📂 Staged all changes",
                 "📝 Commit message: " ++ ans.commitMessageInput,
                 "🚀 Pushed branch to remote: " ++ sanitize ans.branchNameInput,
                 "🚨 Could not create PR",
                 "🚨 PR create stdout: " ++ env.prCreateStdout,
                 "🚨 PR create stderr: " ++ env.prCreateStderr],
        exitCode := 1 } := by
    simp [run, featureBranchPath, hdirty, hdef, hcb, hpr, hexit]
  rw [hrun]
  exact ⟨rfl, by simp, by simp, by intro n; simp, by intro b; simp, by intro b; simp⟩

/-- Witness for `prCreateFailure_haltsPostActions` at a concrete failing
PR creation with every prompt confirmed. -/
theorem prCreateFailure_haltsPostActions_witness :
    (run defaultConfig envPrFail ansAllYes).exitCode = 1 ∧
    ("🚨 PR create stderr: " ++ envPrFail.prCreateStderr) ∈
      (run defaultConfig envPrFail ansAllYes).logs ∧
    Cmd.ghPrMerge "12" ∉ (run defaultConfig envPrFail ansAllYes).cmds ∧
    Cmd.gitCheckout "main" ∉ (run defaultConfig envPrFail ansAllYes).cmds ∧
    Cmd.gitBranchDelete "my-branch" ∉ (run defaultConfig envPrFail ansAllYes).cmds :=
  have h := prCreateFailure_haltsPostActions defaultConfig envPrFail ansAllYes
    (by decide) (by decide) rfl rfl (by decide)
  ⟨h.1, h.2.2.1, h.2.2.2.1 "12", h.2.2.2.2.1 "main", h.2.2.2.2.2 "my-branch"⟩

/-- Claim C2: in the FeatureBranch path, when the PR was created and
auto-merge was requested but the merge command exits non-zero, the failure
is only a warning: the run exits 0, and when the operator had requested the
return to the base branch that checkout is still issued. -/
theorem autoMergeFailure_nonFatal (config : Config) (env : Env) (ans : Answers)
    (hdirty : jsTrim env.statusOutput ≠ "")
    (hdef : jsTrim env.currentBranchOutput ∈ defaultBranches)
    (hcb : ans.createBranch = true) (hpr : ans.createPr = true)
    (hprexit : env.prCreateExit = 0)
    (ham : ans.enableAutoMerge = true)
    (hamexit : env.autoMergeExit ≠ 0) :
    (run config env ans).exitCode = 0 ∧
    "👎 Could not enable auto-merge" ∈ (run config env ans).logs ∧
    (ans.backToDefault = true →
      Cmd.gitCheckout (jsTrim env.currentBranchOutput) ∈ (run config env ans).cmds) := by
  cases hb : ans.backToDefault <;> cases hd : ans.deleteBranch <;>
    simp [run, featureBranchPath, finishRun, hdirty, hdef, hcb, hpr, hprexit, ham, hamexit,
      hb, hd]

/-- Witness for `autoMergeFailure_nonFatal` at a concrete failing
auto-merge with the return to the base branch requested. -/
theorem autoMergeFailure_nonFatal_witness :
    (run defaultConfig envMergeFail ansAllYes).exitCode = 0 ∧
    "👎 Could not enable auto-merge" ∈ (run defaultConfig envMergeFail ansAllYes).logs ∧
    Cmd.gitCheckout (jsTrim envMergeFail.currentBranchOutput) ∈
      (run defaultConfig envMergeFail ansAllYes).cmds :=
  have h := autoMergeFailure_nonFatal defaultConfig envMergeFail ansAllYes
    (by decide) (by decide) rfl rfl rfl rfl (by decide)
  ⟨h.1, h.2.1, h.2.2 rfl⟩

/-- Claim C9: branch classification is exactly the membership test of the
current branch against `{main, master, bullseye}`; the empty string (a
detached head) is not a member; and every non-member selects the
DirectCommit path of the run. -/
theorem branchClassification (config : Config) (env : Env) (ans : Answers) :
    (∀ b : String, defaultBranches.contains b = true ↔
      (b = "main" ∨ b = "master" ∨ b = "bullseye")) ∧
    defaultBranches.contains "" = false ∧
    (jsTrim env.statusOutput ≠ "" →
      jsTrim env.currentBranchOutput ∉ defaultBranches →
      run config env ans = directCommitPath config env ans) := by
  refine ⟨?_, by decide, ?_⟩
  · intro b
    simp [defaultBranches]
  · intro h1 h2
    simp [run, h1, h2]

/-- Witness for `branchClassification`: `bullseye` is a default branch and
a concrete dirty run on `feature-x` takes the DirectCommit path. -/
theorem branchClassification_witness :
    defaultBranches.contains "bullseye" = true ∧
    run defaultConfig cexEnvNoPool cexAnsDeclined =
      directCommitPath defaultConfig cexEnvNoPool cexAnsDeclined :=
  have h := branchClassification defaultConfig cexEnvNoPool cexAnsDeclined
  ⟨(h.1 "bullseye").mpr (Or.inr (Or.inr rfl)), h.2.2 (by decide) (by decide)⟩

/-- Claim C5, amended: in the DirectCommit path a declined wip prompt never
issues an add, commit or push; and when the commit-message resolution
succeeds the run also terminates with exit code 0.  (The source resolves
the commit message before testing the answer, so a failing resolution is
fatal even when the operator declined — see the counterexample.) -/
theorem wipDeclined_noMutation (config : Config) (env : Env) (ans : Answers)
    (hdirty : jsTrim env.statusOutput ≠ "")
    (hndef : jsTrim env.currentBranchOutput ∉ defaultBranches)
    (hwip : ans.wipIt = false) :
    (run config env ans).cmds = [] ∧
    (∀ m, getCommitMessage config.FUNNY_COMMIT env.pool env.randIdx = .ok m →
      run config env ans = { cmds := [], logs := [], exitCode := 0 }) := by
  constructor
  · rcases hm : getCommitMessage config.FUNNY_COMMIT env.pool env.randIdx with m | _ | _ <;>
      simp [run, directCommitPath, hdirty, hndef, hm, hwip]
  · intro m hm
    simp [run, directCommitPath, hdirty, hndef, hm, hwip]

/-- Witness for `wipDeclined_noMutation` at a concrete declined run whose
message pool loads. -/
theorem wipDeclined_noMutation_witness :
    (run defaultConfig envWipPool cexAnsDeclined).cmds = [] ∧
    run defaultConfig envWipPool cexAnsDeclined =
      { cmds := [], logs := [], exitCode := 0 } :=
  have h := wipDeclined_noMutation defaultConfig envWipPool cexAnsDeclined
    (by decide) (by decide) rfl
  ⟨h.1, h.2 "fix stuff" (by decide)⟩

/-- Counterexample to claim C5 as stated: on a dirty feature branch with
`FUNNY_COMMIT = true` and an unreadable message pool, the operator declines
the wip prompt and the run still exits 1 — not 0 — because the source
resolves the commit message before testing the answer. -/
theorem wipDeclined_exitNonzero_cex :
    cexAnsDeclined.wipIt = false ∧
    jsTrim cexEnvNoPool.statusOutput ≠ "" ∧
    jsTrim cexEnvNoPool.currentBranchOutput ∉ defaultBranches ∧
    defaultConfig.FUNNY_COMMIT = true ∧
    (run defaultConfig cexEnvNoPool cexAnsDeclined).exitCode = 1 := by
  refine ⟨rfl, by decide, by decide, rfl, by decide⟩

/-- Claim C6, amended: the parser splits each line on every `=` and uses
the first two segments as key and value (a value containing `=` is
truncated at the second `=`).  All five defaults are `true`; a line whose
key is not recognized never changes the config, and a recognized key whose
value segment is neither `true` nor `false` leaves the config unchanged. -/
theorem configLine_preservesDefaults :
    defaultConfig = { CREATE_PR := true, FUNNY_COMMIT := true, AUTO_MERGE := true,
                      BACK_TO_DEFAULT := true, DELETE_BRANCH := true } ∧
    (∀ content, loadConfig content =
      (jsSplit '\n' content).foldl processConfigLine defaultConfig) ∧
    (∀ c line, lineKV line = none → processConfigLine c line = c) ∧
    (∀ c line k v, lineKV line = some (k, v) →
      jsTrim k ∉ configKeys → processConfigLine c line = c) ∧
    (∀ c line k v, lineKV line = some (k, v) →
      jsTrim k ∈ configKeys →
      jsTrim v ≠ "true" → jsTrim v ≠ "false" → processConfigLine c line = c) := by
  refine ⟨rfl, fun _ => rfl, ?_, ?_, ?_⟩
  · intro c line h
    simp [processConfigLine, h]
  · intro c line k v h hk
    simp [processConfigLine, h, hk]
  · intro c line k v h hk ht hf
    simp [processConfigLine, h, hk, ht, hf]

/-- Witness for `configLine_preservesDefaults`: an unknown key and an
invalid value each leave the defaults untouched. -/
theorem configLine_preservesDefaults_witness :
    processConfigLine defaultConfig "SOME_KEY=yes" = defaultConfig ∧
    processConfigLine defaultConfig "CREATE_PR=maybe" = defaultConfig :=
  have h := configLine_preservesDefaults
  ⟨h.2.2.2.1 defaultConfig "SOME_KEY=yes" "SOME_KEY" "yes" (by decide) (by decide),
   h.2.2.2.2 defaultConfig "CREATE_PR=maybe" "CREATE_PR" "maybe" (by decide) (by decide)
     (by decide) (by decide)⟩

/-- Counterexample to claim C6 as stated: on the line
`FUNNY_COMMIT=false=extra` the value after the FIRST `=` is `false=extra`,
which is neither `true` nor `false`, so under the claim the key would keep
its default `true`; the code instead takes the segment between the first
and second `=` and sets the key to `false`. -/
theorem configSplitFirst_cex :
    (loadConfig "FUNNY_COMMIT=false=extra").FUNNY_COMMIT = false ∧
    specSplitFirstEq "FUNNY_COMMIT=false=extra" = some ("FUNNY_COMMIT", "false=extra") ∧
    jsTrim "false=extra" ≠ "true" ∧ jsTrim "false=extra" ≠ "false" ∧
    defaultConfig.FUNNY_COMMIT = true := by
  refine ⟨by decide, by decide, by decide, by decide, rfl⟩

/-- Claim C7: with `funny = false` the commit message is always the
literal `wip` (and the DirectCommit run commits exactly `wip`); with
`funny = true` the message is the trimmed line at the randomly drawn index
of the pool after dropping `#`-lines and blank lines, and that line always
belongs to the eligible pool. -/
theorem commitMessage_directCommit (config : Config) (env : Env) (ans : Answers) :
    (∀ pool i, getCommitMessage false pool i = .ok "wip") ∧
    (config.FUNNY_COMMIT = false → jsTrim env.statusOutput ≠ "" →
      jsTrim env.currentBranchOutput ∉ defaultBranches → ans.wipIt = true →
      (run config env ans).cmds = [Cmd.gitAdd, Cmd.gitCommit "wip", Cmd.gitPush]) ∧
    (∀ d i line, (eligibleLines d)[i]? = some line →
      getCommitMessage true (some d) i = .ok (jsTrim line) ∧ line ∈ eligibleLines d) := by
  refine ⟨fun pool i => rfl, ?_, ?_⟩
  · intro hf h1 h2 hw
    simp [run, directCommitPath, getCommitMessage, hf, h1, h2, hw]
  · intro d i line h
    exact ⟨by simp [getCommitMessage, h], List.getElem?_mem h⟩

/-- Witness for `commitMessage_directCommit`: the literal `wip` message, a
concrete `wip` commit run, and a concrete trimmed pool selection. -/
theorem commitMessage_directCommit_witness :
    getCommitMessage false (some "x") 3 = .ok "wip" ∧
    (run cfgNoFunny envWipPool ansWipYes).cmds =
      [Cmd.gitAdd, Cmd.gitCommit "wip", Cmd.gitPush] ∧
    getCommitMessage true (some "# pool\nDo stuff \n\nok") 0 = .ok "Do stuff" :=
  have h := commitMessage_directCommit cfgNoFunny envWipPool ansWipYes
  ⟨h.1 (some "x") 3, h.2.1 rfl (by decide) (by decide) rfl,
   (h.2.2 "# pool\nDo stuff \n\nok" 0 "Do stuff " (by decide)).1⟩

/-- Claim C8: an unreadable message pool is fatal when `funny = true`: the
resolution reports the load failure, the run exits 1 with no command
issued, and no fallback `wip` message is substituted. -/
theorem poolLoadFailure_fatal (config : Config) (env : Env) (ans : Answers) :
    (∀ i, getCommitMessage true none i = .loadFailure) ∧
    (config.FUNNY_COMMIT = true → env.pool = none →
      jsTrim env.statusOutput ≠ "" → jsTrim env.currentBranchOutput ∉ defaultBranches →
      run config env ans = { cmds := [], logs := ["Error reading file"], exitCode := 1 }) := by
  refine ⟨fun i => rfl, ?_⟩
  intro hf hp h1 h2
  simp [run, directCommitPath, getCommitMessage, hf, hp, h1, h2]

/-- Witness for `poolLoadFailure_fatal` at a concrete run with the pool
missing and every wip prompt confirmed. -/
theorem poolLoadFailure_fatal_witness :
    getCommitMessage true none 0 = .loadFailure ∧
    run defaultConfig cexEnvNoPool ansWipYes =
      { cmds := [], logs := ["Error reading file"], exitCode := 1 } :=
  have h := poolLoadFailure_fatal defaultConfig cexEnvNoPool ansWipYes
  ⟨h.1 0, h.2 rfl rfl (by decide) (by decide)⟩

/-- Claim C10 (implicit): when the pool loads but no line survives the
filter, `getCommitMessage` with `funny = true` indexes past the end of the
empty list and crashes — a path distinct from the defined load-failure
path — and a defined `ok` result requires at least one eligible line. -/
theorem emptyPool_crash (d : String) (i : Nat) (hempty : eligibleLines d = []) :
    getCommitMessage true (some d) i = .crash ∧
    getCommitMessage true (some d) i ≠ .loadFailure ∧
    (∀ e j m, getCommitMessage true (some e) j = .ok m → eligibleLines e ≠ []) := by
  have h : (eligibleLines d)[i]? = none := by simp [hempty]
  refine ⟨by simp [getCommitMessage, h], by simp [getCommitMessage, h], ?_⟩
  intro e j m hm he
  simp [getCommitMessage, he] at hm

/-- Witness for `emptyPool_crash` at a pool of comments and blanks only. -/
theorem emptyPool_crash_witness :
    getCommitMessage true (some "# only comments\n   \n") 0 = .crash ∧
    getCommitMessage true (some "# only comments\n   \n") 0 ≠ .loadFailure :=
  have h := emptyPool_crash "# only comments\n   \n" 0 (by decide)
  ⟨h.1, h.2.1⟩

end Gun
